import Mathlib

/-!
A shallow embedding of `src/es.js`: the `Idea` event-sourced aggregate with
optimistic local commands (`changeTitle`, `addTag`), an uncommitted-event
queue, a snapshot/log pair used for rollback, and the reconciliation loop
`initializeState` that consumes authoritative event batches.

Modelling conventions:
  * JavaScript `undefined` is `Option.none`; a field that may be absent is an
    `Option`.  The aggregate fields `ideaId`, `title`, `description` may hold
    `undefined`, and `tags` is an array whose members may be `undefined`
    (a pushed `event.data.tagId` that was absent).
  * JavaScript loose equality on correlation ids (`ue.correlationId ==
    event.correlationId`) is `jsEqCorr`: two absent ids compare equal
    (`undefined == undefined` is true), an absent and a present id compare
    unequal, two strings compare by value.
  * A thrown `TypeError` (dispatch to a missing `apply<Type>` handler, or a
    property read on a `null` snapshot) is `Except.error`; an error aborts the
    rest of the computation, which is all the claims need of it.
  * The source's recursion `initializeState → apply<FailedThat…> →
    processFailedEvent → initializeState` is unbounded in general, so the
    model takes a fuel argument, decremented at each event step; running out
    of fuel is the distinguished error `JsError.fuelExhausted`.  Every
    execution of the source's own scenarios terminates, and the theorems
    instantiate the fuel with any sufficiently large constant.
-/

/-- Runtime failures of the JS code: a missing `apply<Type>` handler
(`this[functionName]` is not a function), a property read on `this.snapshot`
when it is `null`, or fuel exhaustion of the model's bounded recursion. -/
inductive JsError where
  | unknownHandler (name : String)
  | nullSnapshot
  | fuelExhausted
deriving Repr, DecidableEq

/-- An event object.  `type` is the dispatch tag; the `data` sub-object is
flattened into option-valued fields (`data.ideaId`, `data.title`,
`data.description`, `data.tagId`); `correlationId` is absent (`none`) on
events that did not originate from a local command. -/
structure Event where
  type : String
  dataIdeaId : Option Int := none
  dataTitle : Option String := none
  dataDescription : Option String := none
  dataTagId : Option Int := none
  correlationId : Option String := none
deriving Repr, DecidableEq

/-- The object built by `createSnapshot`.  Note the identifier is stored under
the key `id` — the source writes `id: _.clone(this.ideaId)` — while
`reconstructFromSnapshot` later reads the key `ideaId`, which this object does
not have. -/
structure Snapshot where
  id : Option Int
  title : Option String
  description : Option String
  tags : List (Option Int)
deriving Repr, DecidableEq

/-- The mutable fields of an `Idea` instance. -/
structure IdeaState where
  snapshot : Option Snapshot
  eventsSinceSnapshot : List Event
  uncommittedEvents : List Event
  ideaId : Option Int
  title : Option String
  description : Option String
  tags : List (Option Int)
deriving Repr, DecidableEq

/-- `new Idea(ideaId, title, description)`.  The test fixture calls it as
`new Idea(123, "1st idea")`, leaving `description` undefined. -/
def mkIdea (ideaId : Option Int) (title : Option String)
    (description : Option String) : IdeaState :=
  { snapshot := none, eventsSinceSnapshot := [], uncommittedEvents := []
    ideaId := ideaId, title := title, description := description, tags := [] }

/-- JS loose equality `==` restricted to the values a correlation id takes in
this program (a string or `undefined`). -/
def jsEqCorr : Option String → Option String → Bool
  | none, none => true
  | some a, some b => a == b
  | _, _ => false

/-- `_.reject(q, ue => ue.correlationId == c)`: keep the entries whose
correlation id does not loosely equal `c`, preserving order. -/
def rejectByCorrelation (c : Option String) (q : List Event) : List Event :=
  q.filter (fun ue => !(jsEqCorr ue.correlationId c))

/-- The snapshot object literal built inside `createSnapshot`. -/
def snapshotOf (st : IdeaState) : Snapshot :=
  { id := st.ideaId, title := st.title
    description := st.description, tags := st.tags }

/-- `this.createSnapshot()`: if `this.snapshot` is `null`, store a copy of the
current fields (the identifier under the key `id`) and reset the log;
otherwise do nothing. -/
def createSnapshot (st : IdeaState) : IdeaState :=
  match st.snapshot with
  | some _ => st
  | none =>
      { st with snapshot := some (snapshotOf st), eventsSinceSnapshot := [] }

/-- The field assignments of `reconstructFromSnapshot`, given a non-null
snapshot.  The source reads `this.snapshot.ideaId`, but `createSnapshot`
stored the identifier under the key `id`, so that property read yields
`undefined`: the reconstructed `ideaId` is `none`.  The other three reads use
the keys that were actually stored. -/
def reconstructFields (sn : Snapshot) (st : IdeaState) : IdeaState :=
  { st with ideaId := none, title := sn.title
            description := sn.description, tags := sn.tags }

/-- `this.reconstructFromSnapshot()`.  When `this.snapshot` is `null`, the
property reads throw a `TypeError`. -/
def reconstructFromSnapshot (st : IdeaState) : Except JsError IdeaState :=
  match st.snapshot with
  | none => .error .nullSnapshot
  | some sn => .ok (reconstructFields sn st)

/-- `this.allEventsCommited()`: when a snapshot exists, reconstruct the state
from it (the snapshot here is non-null, so the reads cannot throw), then null
the snapshot and empty the log. -/
def allEventsCommited (st : IdeaState) : IdeaState :=
  match st.snapshot with
  | none => st
  | some sn =>
      { reconstructFields sn st with
          snapshot := none, eventsSinceSnapshot := [] }

/-- `this.recordThat(e)`: append to the events-since-snapshot log, but only
while a snapshot exists. -/
def recordThat (e : Event) (st : IdeaState) : IdeaState :=
  match st.snapshot with
  | none => st
  | some _ =>
      { st with eventsSinceSnapshot := st.eventsSinceSnapshot ++ [e] }

/-- `this.applyIdeaWasCreated(event)`. -/
def applyIdeaWasCreated (e : Event) (st : IdeaState) : IdeaState :=
  recordThat e { st with ideaId := e.dataIdeaId, title := e.dataTitle
                         description := e.dataDescription }

/-- `this.applyIdeaTitleWasChanged(event)`. -/
def applyIdeaTitleWasChanged (e : Event) (st : IdeaState) : IdeaState :=
  recordThat e { st with title := e.dataTitle }

/-- `this.applyTagWasAddedToAnIdea(event)`: `this.tags.push(event.data.tagId)`
— an unconditional append. -/
def applyTagWasAddedToAnIdea (e : Event) (st : IdeaState) : IdeaState :=
  recordThat e { st with tags := st.tags ++ [e.dataTagId] }

/-- `this.initializeState(stream, fromSnapshot)`.  For each event of the
stream, in order: when `fromSnapshot` is falsy, reject matching entries from
`uncommittedEvents`; dispatch `this['apply' + event.type](event)` —
`applyFailedThatIdeaTitleWasChanged` and `applyFailedThatTagWasAddedToAnIdea`
both delegate to `processFailedEvent`, whose body (shorten the log, rebuild
from the snapshot, replay the shortened log with `fromSnapshot = true`) is
inlined here so the recursion is structural on the fuel; a missing handler is
a `TypeError`.  Then, still inside the loop, when `fromSnapshot` is falsy and
the queue is empty, call `allEventsCommited()`. -/
def initializeState (fuel : Nat) (stream : List Event) (fromSnapshot : Bool)
    (st : IdeaState) : Except JsError IdeaState :=
  match fuel, stream with
  | _, [] => .ok st
  | 0, _ :: _ => .error .fuelExhausted
  | fuel + 1, e :: rest =>
    let st1 := if fromSnapshot then st
      else { st with uncommittedEvents :=
                       rejectByCorrelation e.correlationId st.uncommittedEvents }
    (if e.type = "IdeaWasCreated" then .ok (applyIdeaWasCreated e st1)
      else if e.type = "IdeaTitleWasChanged" then
        .ok (applyIdeaTitleWasChanged e st1)
      else if e.type = "TagWasAddedToAnIdea" then
        .ok (applyTagWasAddedToAnIdea e st1)
      else if e.type = "FailedThatIdeaTitleWasChanged"
           ∨ e.type = "FailedThatTagWasAddedToAnIdea" then
        (reconstructFromSnapshot
            { st1 with eventsSinceSnapshot :=
                rejectByCorrelation e.correlationId st1.eventsSinceSnapshot }).bind
          (fun st2 => initializeState fuel
            (rejectByCorrelation e.correlationId st1.eventsSinceSnapshot) true st2)
      else (.error (.unknownHandler ("apply" ++ e.type)) :
              Except JsError IdeaState)).bind
      (fun st3 => initializeState fuel rest fromSnapshot
        (if fromSnapshot = false ∧ st3.uncommittedEvents.length = 0
         then allEventsCommited st3 else st3))

/-- `this.processFailedEvent(event)`: reject the referenced entry from the
events-since-snapshot log, reconstruct the state from the snapshot, and
replay the shortened log via `initializeState(log, true)`.  This is the same
code that `initializeState` inlines for the two `FailedThat…` handlers.
(In the source the replay iterates over the very array that `recordThat`
appends to; a JS `for (si in stream)` enumerates the keys present when the
loop starts, so the replay visits exactly the entries of the shortened log,
which is what passing the list by value models.) -/
def processFailedEvent (fuel : Nat) (e : Event) (st : IdeaState) :
    Except JsError IdeaState :=
  (reconstructFromSnapshot
      { st with eventsSinceSnapshot :=
          rejectByCorrelation e.correlationId st.eventsSinceSnapshot }).bind
    (fun st2 => initializeState fuel
      (rejectByCorrelation e.correlationId st.eventsSinceSnapshot) true st2)

/-- The dispatch `this['apply' + event.type](event)` as a standalone function
(the body of one loop step of `initializeState`, before the queue juggling).
`initializeState` at one step of a non-empty stream unfolds to this — see
`initializeState_cons`. -/
def applyHandler (fuel : Nat) (e : Event) (st : IdeaState) :
    Except JsError IdeaState :=
  if e.type = "IdeaWasCreated" then .ok (applyIdeaWasCreated e st)
  else if e.type = "IdeaTitleWasChanged" then
    .ok (applyIdeaTitleWasChanged e st)
  else if e.type = "TagWasAddedToAnIdea" then
    .ok (applyTagWasAddedToAnIdea e st)
  else if e.type = "FailedThatIdeaTitleWasChanged"
       ∨ e.type = "FailedThatTagWasAddedToAnIdea" then
    processFailedEvent fuel e st
  else .error (.unknownHandler ("apply" ++ e.type))

/-- The event literal built by `changeTitle`. -/
def mkTitleEvent (ideaId : Option Int) (newTitle : String) : Event :=
  { type := "IdeaTitleWasChanged", dataIdeaId := ideaId
    dataTitle := some newTitle
    correlationId := some ("my-ref-title" ++ newTitle) }

/-- The event literal built by `addTag`; the correlation id is the JS string
concatenation `"my-ref-" + tagId`. -/
def mkTagEvent (ideaId : Option Int) (tagId : Int) : Event :=
  { type := "TagWasAddedToAnIdea", dataIdeaId := ideaId
    dataTagId := some tagId
    correlationId := some ("my-ref-" ++ toString tagId) }

/-- `this.changeTitle(newTitle)`: `createSnapshot()` then `apply(event)`.
The dispatch of `apply` on the literal type `"IdeaTitleWasChanged"` reaches
`applyIdeaTitleWasChanged` (total), after which `apply` pushes the event onto
`uncommittedEvents`. -/
def changeTitle (newTitle : String) (st : IdeaState) : IdeaState :=
  let st1 := createSnapshot st
  let e := mkTitleEvent st1.ideaId newTitle
  let st2 := applyIdeaTitleWasChanged e st1
  { st2 with uncommittedEvents := st2.uncommittedEvents ++ [e] }

/-- `this.addTag(tagId)`: `createSnapshot()` then `apply(event)`; the dispatch
reaches `applyTagWasAddedToAnIdea`, then `apply` pushes the event onto
`uncommittedEvents`. -/
def addTag (tagId : Int) (st : IdeaState) : IdeaState :=
  let st1 := createSnapshot st
  let e := mkTagEvent st1.ideaId tagId
  let st2 := applyTagWasAddedToAnIdea e st1
  { st2 with uncommittedEvents := st2.uncommittedEvents ++ [e] }

/-- One reconciliation loop step of `initializeState` with `fromSnapshot`
falsy: reject from the queue, dispatch, then the in-loop drain check. -/
def reconcileStep (fuel : Nat) (e : Event) (st : IdeaState) :
    Except JsError IdeaState :=
  (applyHandler fuel e
      { st with uncommittedEvents :=
                  rejectByCorrelation e.correlationId st.uncommittedEvents }).map
    (fun st3 => if st3.uncommittedEvents.length = 0
      then allEventsCommited st3 else st3)

/-- The reconciliation loop without any drain check (used only to build the
spec-timing variant below). -/
def reconcileNoCheck (fuel : Nat) (stream : List Event) (st : IdeaState) :
    Except JsError IdeaState :=
  match fuel, stream with
  | _, [] => .ok st
  | 0, _ :: _ => .error .fuelExhausted
  | fuel + 1, e :: rest =>
    (applyHandler fuel e
        { st with uncommittedEvents :=
                    rejectByCorrelation e.correlationId
                      st.uncommittedEvents }).bind
      (fun st3 => reconcileNoCheck fuel rest st3)

/-- Modelled from the spec (§4.4 step 3): the reconciliation variant in which
the queue-empty check and the snapshot discard run only once, after the
entire batch has been processed — never between two events of the batch.
Used to compare the source's per-event check against the spec's timing. -/
def initializeStateSpecTiming (fuel : Nat) (stream : List Event)
    (st : IdeaState) : Except JsError IdeaState :=
  (reconcileNoCheck fuel stream st).map
    (fun s => if s.uncommittedEvents.length = 0 then allEventsCommited s else s)

/-- The event types having a registered non-failure handler. -/
def isNormalType (e : Event) : Prop :=
  e.type = "IdeaWasCreated" ∨ e.type = "IdeaTitleWasChanged"
    ∨ e.type = "TagWasAddedToAnIdea"

instance (e : Event) : Decidable (isNormalType e) := by
  unfold isNormalType; infer_instance

/-- A server echo of a local title change: the batch event confirming the
pending entry, bearing the correlation id that `changeTitle t` derives. -/
def confirmTitle (t : String) : Event :=
  { type := "IdeaTitleWasChanged", dataTitle := some t
    correlationId := some ("my-ref-title" ++ t) }

/-- A server echo of a local tag addition, bearing the correlation id that
`addTag n` derives. -/
def confirmTag (n : Int) : Event :=
  { type := "TagWasAddedToAnIdea", dataTagId := some n
    correlationId := some ("my-ref-" ++ toString n) }

/-! Concrete fixtures, mirroring the repository's test cases: the aggregate
`new Idea(123, "1st idea")` and the batches the scenarios feed it. -/

/-- The test fixture `new Idea(123, "1st idea")`. -/
def idea0 : IdeaState := mkIdea (some 123) (some "1st idea") none

/-- The local title-change event produced by `changeTitle("New title")` on
`idea0`. -/
def eNewTitle : Event := mkTitleEvent (some 123) "New title"

/-- The snapshot taken on the first local mutation of `idea0`. -/
def snap1st : Snapshot :=
  { id := some 123, title := some "1st idea", description := none, tags := [] }

/-- `idea0` after `changeTitle("New title")` (pending event E1) and
`addTag(5)` (pending event E2). -/
def stC1 : IdeaState := addTag 5 (changeTitle "New title" idea0)

/-- A server rejection of the pending `addTag(5)`: correlation id
`"my-ref-5"`. -/
def failTag5 : Event :=
  { type := "FailedThatTagWasAddedToAnIdea", correlationId := some "my-ref-5" }

/-- `idea0` after `changeTitle("Awesome idea")`: one pending local event and
a live snapshot. -/
def stP : IdeaState := changeTitle "Awesome idea" idea0

/-- The local title-change event pending inside `stP`. -/
def eAwesome : Event := mkTitleEvent (some 123) "Awesome idea"

/-- A batch event confirming `stP`'s pending title change. -/
def confirmAwesome : Event :=
  { type := "IdeaTitleWasChanged", dataTitle := some "Awesome idea"
    correlationId := some "my-ref-titleAwesome idea" }

/-- A remote tag event authored by another actor: no correlation id. -/
def remoteTag7 : Event := { type := "TagWasAddedToAnIdea", dataTagId := some 7 }

/-- The state of `stP` at the moment the reconciliation loop observes the
queue empty, right after applying `confirmAwesome` and just before the
discard: title already `"Awesome idea"`, snapshot still holding the
`"1st idea"` baseline, queue drained. -/
def stObs : IdeaState :=
  { snapshot := some snap1st
    eventsSinceSnapshot := [eAwesome, confirmAwesome]
    uncommittedEvents := []
    ideaId := some 123, title := some "Awesome idea"
    description := none, tags := [] }

/-- A rejection whose correlation id matches nothing held locally. -/
def ghostFail : Event :=
  { type := "FailedThatIdeaTitleWasChanged", correlationId := some "ghost" }

/-- The unrelated server title change of the literal logging scenario. -/
def c8Server : Event :=
  { type := "IdeaTitleWasChanged", dataTitle := some "Title from server"
    correlationId := some "noise" }

/-! Helper lemmas about the embedding, shared by the claim theorems. -/

theorem initializeState_nil (f : Nat) (b : Bool) (st : IdeaState) :
    initializeState f [] b st = .ok st := by cases f <;> rfl

theorem initializeState_cons (f : Nat) (e : Event) (rest : List Event)
    (b : Bool) (st : IdeaState) :
    initializeState (f + 1) (e :: rest) b st
      = (applyHandler f e (if b then st
          else { st with uncommittedEvents :=
                   rejectByCorrelation e.correlationId st.uncommittedEvents })).bind
          (fun st3 => initializeState f rest b
            (if b = false ∧ st3.uncommittedEvents.length = 0
             then allEventsCommited st3 else st3)) := by
  rw [initializeState.eq_3]
  rfl

theorem recordThat_uncommitted (e : Event) (st : IdeaState) :
    (recordThat e st).uncommittedEvents = st.uncommittedEvents := by
  cases h : st.snapshot <;> simp [recordThat, h]

theorem recordThat_snapshot (e : Event) (st : IdeaState) :
    (recordThat e st).snapshot = st.snapshot := by
  cases h : st.snapshot <;> simp [recordThat, h]

theorem recordThat_ideaId (e : Event) (st : IdeaState) :
    (recordThat e st).ideaId = st.ideaId := by
  cases h : st.snapshot <;> simp [recordThat, h]

theorem recordThat_tags (e : Event) (st : IdeaState) :
    (recordThat e st).tags = st.tags := by
  cases h : st.snapshot <;> simp [recordThat, h]

theorem allEventsCommited_uncommitted (st : IdeaState) :
    (allEventsCommited st).uncommittedEvents = st.uncommittedEvents := by
  cases h : st.snapshot <;> simp [allEventsCommited, h, reconstructFields]

theorem allEventsCommited_snapshot (st : IdeaState) :
    (allEventsCommited st).snapshot = none := by
  cases h : st.snapshot <;> simp [allEventsCommited, h, reconstructFields]

theorem createSnapshot_ideaId (st : IdeaState) :
    (createSnapshot st).ideaId = st.ideaId := by
  cases h : st.snapshot <;> simp [createSnapshot, h]

theorem createSnapshot_uncommitted (st : IdeaState) :
    (createSnapshot st).uncommittedEvents = st.uncommittedEvents := by
  cases h : st.snapshot <;> simp [createSnapshot, h]

theorem createSnapshot_tags (st : IdeaState) :
    (createSnapshot st).tags = st.tags := by
  cases h : st.snapshot <;> simp [createSnapshot, h]

theorem changeTitle_uncommitted (t : String) (st : IdeaState) :
    (changeTitle t st).uncommittedEvents
      = st.uncommittedEvents ++ [mkTitleEvent st.ideaId t] := by
  simp [changeTitle, applyIdeaTitleWasChanged, recordThat_uncommitted,
    createSnapshot_uncommitted, createSnapshot_ideaId]

theorem changeTitle_ideaId (t : String) (st : IdeaState) :
    (changeTitle t st).ideaId = st.ideaId := by
  simp [changeTitle, applyIdeaTitleWasChanged, recordThat_ideaId,
    createSnapshot_ideaId]

theorem addTag_uncommitted (n : Int) (st : IdeaState) :
    (addTag n st).uncommittedEvents
      = st.uncommittedEvents ++ [mkTagEvent st.ideaId n] := by
  simp [addTag, applyTagWasAddedToAnIdea, recordThat_uncommitted,
    createSnapshot_uncommitted, createSnapshot_ideaId]

theorem addTag_ideaId (n : Int) (st : IdeaState) :
    (addTag n st).ideaId = st.ideaId := by
  simp [addTag, applyTagWasAddedToAnIdea, recordThat_ideaId,
    createSnapshot_ideaId]

theorem addTag_tags (n : Int) (st : IdeaState) :
    (addTag n st).tags = st.tags ++ [some n] := by
  simp [addTag, applyTagWasAddedToAnIdea, recordThat_tags,
    createSnapshot_tags, mkTagEvent]

theorem normal_apply_queue (f : Nat) (e : Event) (st : IdeaState)
    (hn : isNormalType e) :
    ∃ st3, applyHandler f e st = .ok st3
      ∧ st3.uncommittedEvents = st.uncommittedEvents := by
  rcases hn with h | h | h
  · exact ⟨applyIdeaWasCreated e st, by simp [applyHandler, h],
      by simp [applyIdeaWasCreated, recordThat_uncommitted]⟩
  · exact ⟨applyIdeaTitleWasChanged e st, by simp [applyHandler, h],
      by simp [applyIdeaTitleWasChanged, recordThat_uncommitted]⟩
  · exact ⟨applyTagWasAddedToAnIdea e st, by simp [applyHandler, h],
      by simp [applyTagWasAddedToAnIdea, recordThat_uncommitted]⟩

theorem normal_apply_some (f : Nat) (e : Event) (st : IdeaState)
    (sn : Snapshot) (hsn : st.snapshot = some sn) (hn : isNormalType e) :
    ∃ st3, applyHandler f e st = .ok st3
      ∧ st3.uncommittedEvents = st.uncommittedEvents
      ∧ st3.snapshot = some sn
      ∧ st3.eventsSinceSnapshot = st.eventsSinceSnapshot ++ [e] := by
  rcases hn with h | h | h
  · exact ⟨applyIdeaWasCreated e st, by simp [applyHandler, h],
      by simp [applyIdeaWasCreated, recordThat_uncommitted],
      by simp [applyIdeaWasCreated, recordThat_snapshot, hsn],
      by simp [applyIdeaWasCreated, recordThat, hsn]⟩
  · exact ⟨applyIdeaTitleWasChanged e st, by simp [applyHandler, h],
      by simp [applyIdeaTitleWasChanged, recordThat_uncommitted],
      by simp [applyIdeaTitleWasChanged, recordThat_snapshot, hsn],
      by simp [applyIdeaTitleWasChanged, recordThat, hsn]⟩
  · exact ⟨applyTagWasAddedToAnIdea e st, by simp [applyHandler, h],
      by simp [applyTagWasAddedToAnIdea, recordThat_uncommitted],
      by simp [applyTagWasAddedToAnIdea, recordThat_snapshot, hsn],
      by simp [applyTagWasAddedToAnIdea, recordThat, hsn]⟩

theorem initializeState_one_normal (f : Nat) (e : Event) (st : IdeaState)
    (hn : isNormalType e) :
    ∃ st2, initializeState (f + 1) [e] false st = .ok st2
      ∧ st2.uncommittedEvents
          = rejectByCorrelation e.correlationId st.uncommittedEvents := by
  obtain ⟨st3, happ, hq3⟩ := normal_apply_queue f e
    { st with uncommittedEvents :=
        rejectByCorrelation e.correlationId st.uncommittedEvents } hn
  rw [initializeState_cons]
  simp only [Bool.false_eq_true, if_false, happ, Except.bind,
    eq_self_iff_true, true_and]
  refine ⟨if st3.uncommittedEvents.length = 0 then allEventsCommited st3
    else st3, initializeState_nil f false _, ?_⟩
  split
  · rw [allEventsCommited_uncommitted, hq3]
  · rw [hq3]

theorem replay_appends (L : List Event) : ∀ (f : Nat) (st : IdeaState),
    st.snapshot.isSome = true → (∀ e ∈ L, isNormalType e) → L.length ≤ f →
    ∃ st2, initializeState f L true st = .ok st2
      ∧ st2.eventsSinceSnapshot = st.eventsSinceSnapshot ++ L
      ∧ st2.uncommittedEvents = st.uncommittedEvents
      ∧ st2.snapshot = st.snapshot := by
  induction L with
  | nil =>
    intro f st _ _ _
    exact ⟨st, initializeState_nil f true st, by simp, rfl, rfl⟩
  | cons e L ih =>
    intro f st hs hL hf
    match f with
    | 0 => simp at hf
    | f + 1 =>
      obtain ⟨sn, hsn⟩ := Option.isSome_iff_exists.mp hs
      obtain ⟨st3, happ, hq3, hsn3, hlog3⟩ :=
        normal_apply_some f e st sn hsn (hL e (by simp))
      obtain ⟨st2, hrun, hlog2, hq2, hsn2⟩ := ih f st3
        (by simp [hsn3]) (fun x hx => hL x (by simp [hx]))
        (by simp at hf; omega)
      refine ⟨st2, ?_, ?_, ?_, ?_⟩
      · rw [initializeState_cons]
        simp only [eq_self_iff_true, if_true, happ, Except.bind,
          Bool.true_eq_false, false_and, if_false]
        exact hrun
      · rw [hlog2, hlog3]; simp
      · rw [hq2, hq3]
      · rw [hsn2, hsn3, hsn]

theorem processFailedEvent_spec (f : Nat) (e : Event) (st : IdeaState)
    (sn : Snapshot) (hs : st.snapshot = some sn)
    (hL : ∀ x ∈ st.eventsSinceSnapshot, isNormalType x)
    (hf : st.eventsSinceSnapshot.length ≤ f) :
    ∃ st2, processFailedEvent f e st = .ok st2
      ∧ st2.uncommittedEvents = st.uncommittedEvents
      ∧ st2.snapshot = some sn
      ∧ st2.eventsSinceSnapshot
          = rejectByCorrelation e.correlationId st.eventsSinceSnapshot
            ++ rejectByCorrelation e.correlationId st.eventsSinceSnapshot := by
  obtain ⟨st2, hrun, hlog, hq, hsn⟩ := replay_appends
    (rejectByCorrelation e.correlationId st.eventsSinceSnapshot) f
    (reconstructFields sn
      { st with eventsSinceSnapshot :=
          rejectByCorrelation e.correlationId st.eventsSinceSnapshot })
    (by simp [reconstructFields, hs])
    (fun x hx => hL x (List.mem_of_mem_filter hx))
    (le_trans (List.length_filter_le _ _) hf)
  have hrec : reconstructFromSnapshot
      { st with eventsSinceSnapshot :=
          rejectByCorrelation e.correlationId st.eventsSinceSnapshot }
    = .ok (reconstructFields sn
        { st with eventsSinceSnapshot :=
            rejectByCorrelation e.correlationId st.eventsSinceSnapshot }) := by
    simp [reconstructFromSnapshot, hs]
  refine ⟨st2, ?_, ?_, ?_, ?_⟩
  · unfold processFailedEvent
    rw [hrec]
    simp only [Except.bind]
    exact hrun
  · rw [hq]; simp [reconstructFields]
  · rw [hsn]; simp [reconstructFields, hs]
  · rw [hlog]; simp [reconstructFields]

/-! Claim theorems. -/

/-- C1.  The claim asserts rollback correctness: with pending local events E1
(`changeTitle "New title"`) and E2 (`addTag 5`), reconciling a batch holding a
rejection of E2 should leave the state exactly as if E2 had never been
applied — E1 still reflected and the identifier untouched.  Evaluating the
code at that input: title, description and tags do match the
snapshot-plus-shortened-replay, but `ideaId` comes out `none` (undefined)
rather than `some 123`, because `createSnapshot` stores the identifier under
the key `id` while `reconstructFromSnapshot` reads `snapshot.ideaId`; the
replayed E1 is also logged a second time.  The state an unapplied E2 would
have given keeps `ideaId = some 123`, so the code contradicts the claim on
the identifier field. -/
theorem rejection_rollback_drops_ideaId :
    stC1.ideaId = some 123
  ∧ (changeTitle "New title" idea0).ideaId = some 123
  ∧ initializeState 9 [failTag5] false stC1
      = .ok { snapshot := some snap1st
              eventsSinceSnapshot := [eNewTitle, eNewTitle]
              uncommittedEvents := [eNewTitle]
              ideaId := none, title := some "New title"
              description := none, tags := [] } :=
  ⟨rfl, rfl, rfl⟩

/-- C2 counterexample.  A reconciliation pass (`reconcileStep` is one loop
step of `initializeState`) that drains the queue reaches `stObs` — queue
empty, title `"Awesome idea"` — and then discards via `allEventsCommited`.
The claim says the discard leaves the materialized state untouched, but it
overwrites title (back to the snapshot's `"1st idea"`) and ideaId (to
undefined): `allEventsCommited` calls `reconstructFromSnapshot` before
clearing. -/
theorem discard_reverts_state_cex :
    reconcileStep 8 confirmAwesome stP = .ok (allEventsCommited stObs)
  ∧ stObs.uncommittedEvents = []
  ∧ stObs.title = some "Awesome idea"
  ∧ (allEventsCommited stObs).title = some "1st idea"
  ∧ ¬ ((allEventsCommited stObs).title = stObs.title)
  ∧ ¬ ((allEventsCommited stObs).ideaId = stObs.ideaId) :=
  ⟨rfl, rfl, rfl, rfl, by decide, by decide⟩

/-- C2, amended.  When the queue is observed empty and a snapshot exists, the
discard clears the snapshot and empties the log, but it does not leave the
current state untouched: it first restores every materialized field from the
snapshot — title, description and tags revert to the snapshot's values, and
`ideaId` becomes undefined (the snapshot stored the identifier under `id`
while the restore reads `ideaId`). -/
theorem discard_restores_snapshot_then_clears (st : IdeaState) (sn : Snapshot)
    (h : st.snapshot = some sn) :
    allEventsCommited st
      = { st with ideaId := none, title := sn.title
                  description := sn.description, tags := sn.tags
                  snapshot := none, eventsSinceSnapshot := [] } := by
  simp [allEventsCommited, h, reconstructFields]

/-- Witness for C2's amended theorem at the concrete drained state `stObs`. -/
theorem discard_restores_snapshot_then_clears_w :
    allEventsCommited stObs
      = { stObs with ideaId := none, title := some "1st idea"
                     description := none, tags := []
                     snapshot := none, eventsSinceSnapshot := [] } :=
  discard_restores_snapshot_then_clears stObs snap1st rfl

/-- C3 counterexample.  Just before the replay the shortened log is
`[eNewTitle]`, yet after `processFailedEvent` the log is
`[eNewTitle, eNewTitle]`: the replay re-entered `recordThat`, so the log does
not contain "exactly the entries it contained just before the replay, each
exactly once".  (The Uncommitted Queue is indeed untouched.) -/
theorem replay_relogs_cex :
    rejectByCorrelation failTag5.correlationId stC1.eventsSinceSnapshot
      = [eNewTitle]
  ∧ processFailedEvent 9 failTag5 stC1
      = .ok { snapshot := some snap1st
              eventsSinceSnapshot := [eNewTitle, eNewTitle]
              uncommittedEvents := [eNewTitle, mkTagEvent (some 123) 5]
              ideaId := none, title := some "New title"
              description := none, tags := [] }
  ∧ stC1.uncommittedEvents = [eNewTitle, mkTagEvent (some 123) 5]
  ∧ ¬ ([eNewTitle, eNewTitle] = [eNewTitle]) :=
  ⟨rfl, rfl, rfl, by decide⟩

/-- C3, amended.  For every rejection handled while a snapshot is live (log
entries all of registered non-failure kinds, enough fuel): the replay of the
shortened log appends nothing to the Uncommitted Queue, but it is not
read-only against the log — every replayed event is recorded again, so
afterwards the log holds the shortened log twice, each surviving entry
appearing twice. -/
theorem processFailedEvent_duplicates_log (f : Nat) (e : Event)
    (st : IdeaState) (sn : Snapshot) (hs : st.snapshot = some sn)
    (hL : ∀ x ∈ st.eventsSinceSnapshot, isNormalType x)
    (hf : st.eventsSinceSnapshot.length ≤ f) :
    ∃ st2, processFailedEvent f e st = .ok st2
      ∧ st2.uncommittedEvents = st.uncommittedEvents
      ∧ st2.eventsSinceSnapshot
          = rejectByCorrelation e.correlationId st.eventsSinceSnapshot
            ++ rejectByCorrelation e.correlationId st.eventsSinceSnapshot := by
  obtain ⟨st2, hrun, hq, _, hlog⟩ := processFailedEvent_spec f e st sn hs hL hf
  exact ⟨st2, hrun, hq, hlog⟩

/-- Witness for C3's amended theorem at the C1 fixture. -/
theorem processFailedEvent_duplicates_log_w :
    ∃ st2, processFailedEvent 9 failTag5 stC1 = .ok st2
      ∧ st2.uncommittedEvents = stC1.uncommittedEvents
      ∧ st2.eventsSinceSnapshot
          = rejectByCorrelation failTag5.correlationId stC1.eventsSinceSnapshot
            ++ rejectByCorrelation failTag5.correlationId
                 stC1.eventsSinceSnapshot :=
  processFailedEvent_duplicates_log 9 failTag5 stC1 snap1st rfl
    (by decide) (by decide)

/-- C4 counterexample.  A rejection whose correlation id matches nothing,
delivered when no snapshot exists (exactly the duplicate-redelivery situation
the claim cites): reconciling it is not an idempotent skip — the rollback
reads a property of the null snapshot and the reconciliation aborts with an
error. -/
theorem unknown_rejection_raises_cex :
    idea0.snapshot = none
  ∧ initializeState 9 [ghostFail] false idea0 = .error .nullSnapshot :=
  ⟨rfl, rfl⟩

/-- C4, amended.  A rejection referencing an unknown correlation id is not a
no-op: with no snapshot, `processFailedEvent` dereferences the null snapshot
and fails; with a snapshot (normal-typed log, enough fuel) whose log the
rejection matches nowhere, the queue is preserved but the state is rebuilt
from the snapshot and every log entry is appended to the log a second time. -/
theorem unknown_rejection_not_noop :
    (∀ (f : Nat) (e : Event) (st : IdeaState), st.snapshot = none →
        processFailedEvent f e st = .error .nullSnapshot)
  ∧ (∀ (f : Nat) (e : Event) (st : IdeaState) (sn : Snapshot),
        st.snapshot = some sn →
        (∀ x ∈ st.eventsSinceSnapshot, isNormalType x) →
        rejectByCorrelation e.correlationId st.eventsSinceSnapshot
          = st.eventsSinceSnapshot →
        st.eventsSinceSnapshot.length ≤ f →
        ∃ st2, processFailedEvent f e st = .ok st2
          ∧ st2.uncommittedEvents = st.uncommittedEvents
          ∧ st2.snapshot = some sn
          ∧ st2.eventsSinceSnapshot
              = st.eventsSinceSnapshot ++ st.eventsSinceSnapshot) := by
  constructor
  · intro f e st h
    unfold processFailedEvent
    simp [reconstructFromSnapshot, h, Except.bind]
  · intro f e st sn hs hL hno hf
    obtain ⟨st2, hrun, hq, hsn2, hlog⟩ := processFailedEvent_spec f e st sn hs hL hf
    rw [hno] at hlog
    exact ⟨st2, hrun, hq, hsn2, hlog⟩

/-- Witness for C4's amended theorem: the null-snapshot failure at `idea0`
and the snapshot-present rebuild at `stC1` with the unmatched `ghostFail`. -/
theorem unknown_rejection_not_noop_w :
    processFailedEvent 3 ghostFail idea0 = .error .nullSnapshot
  ∧ ∃ st2, processFailedEvent 9 ghostFail stC1 = .ok st2
      ∧ st2.uncommittedEvents = stC1.uncommittedEvents
      ∧ st2.snapshot = some snap1st
      ∧ st2.eventsSinceSnapshot
          = stC1.eventsSinceSnapshot ++ stC1.eventsSinceSnapshot :=
  ⟨unknown_rejection_not_noop.1 3 ghostFail idea0 rfl,
   unknown_rejection_not_noop.2 9 ghostFail stC1 snap1st rfl
     (by decide) (by decide) (by decide)⟩

/-- C5 counterexample.  `addTag(1)` applied twice to the fixture yields a tag
array containing the tag twice — the insertion is a plain `push`, so a tag
set "containing x exactly once" is refuted (no error is raised, but the tag
is duplicated). -/
theorem addTag_twice_not_once_cex :
    (addTag 1 (addTag 1 idea0)).tags = [some 1, some 1]
  ∧ ¬ ((addTag 1 (addTag 1 idea0)).tags.count (some 1) = 1) :=
  ⟨rfl, by decide⟩

/-- C5, amended.  Tag insertion is not idempotent: `addTag x` never raises an
error but appends unconditionally, so applying it twice appends two copies of
`x` (and each single application appends one copy). -/
theorem addTag_appends_unconditionally (x : Int) (st : IdeaState) :
    (addTag x (addTag x st)).tags = st.tags ++ [some x, some x]
  ∧ (addTag x st).tags = st.tags ++ [some x] := by
  constructor
  · rw [addTag_tags, addTag_tags]; simp
  · exact addTag_tags x st

/-- Witness for C5's amended theorem at the fixture. -/
theorem addTag_appends_unconditionally_w :
    (addTag 1 (addTag 1 idea0)).tags = idea0.tags ++ [some 1, some 1]
  ∧ (addTag 1 idea0).tags = idea0.tags ++ [some 1] :=
  addTag_appends_unconditionally 1 idea0

/-- C6.  The claim says the identifier survives taking a snapshot and rolling
back from it.  It does not: `createSnapshot` saves the identifier under the
key `id` (first conjunct — the value saved is the aggregate's `ideaId`), but
`reconstructFromSnapshot` reads the absent key `ideaId`, so for every
aggregate the roundtrip ends with `ideaId = none` (undefined) instead of the
identifier held when the snapshot was taken — the code contradicts its own
snapshot layout, a field-name slip. -/
theorem snapshot_roundtrip_loses_ideaId (st : IdeaState)
    (h : st.snapshot = none) :
    (snapshotOf st).id = st.ideaId
  ∧ reconstructFromSnapshot (createSnapshot st)
      = .ok { st with snapshot := some (snapshotOf st)
                      eventsSinceSnapshot := [], ideaId := none } := by
  constructor
  · rfl
  · simp [createSnapshot, h, reconstructFromSnapshot, reconstructFields,
      snapshotOf]

/-- Witness for C6's theorem at the fixture `idea0` (identifier 123). -/
theorem snapshot_roundtrip_loses_ideaId_w :
    (snapshotOf idea0).id = some 123
  ∧ reconstructFromSnapshot (createSnapshot idea0)
      = .ok { idea0 with snapshot := some (snapshotOf idea0)
                         eventsSinceSnapshot := [], ideaId := none } :=
  snapshot_roundtrip_loses_ideaId idea0 rfl

/-- C7 counterexample.  Batch = [confirmation of the pending title change,
remote tag event].  The claim says the queue-empty check and discard run only
after the whole batch (`initializeStateSpecTiming`).  The code checks inside
the loop: the queue drains after the first event, the snapshot is discarded
mid-batch (reverting the state), and the remote tag then lands on the
post-discard state — final tags `[some 7]`.  Under after-batch timing the tag
would be applied before the discard and swept away with it — final tags `[]`.
The two runs differ, so a discard happened between two events of the
batch. -/
theorem discard_mid_batch_cex :
    initializeState 9 [confirmAwesome, remoteTag7] false stP
      = .ok { snapshot := none, eventsSinceSnapshot := []
              uncommittedEvents := [], ideaId := none
              title := some "1st idea", description := none
              tags := [some 7] }
  ∧ initializeStateSpecTiming 9 [confirmAwesome, remoteTag7] stP
      = .ok { snapshot := none, eventsSinceSnapshot := []
              uncommittedEvents := [], ideaId := none
              title := some "1st idea", description := none
              tags := [] }
  ∧ ¬ ([some 7] = ([] : List (Option Int))) :=
  ⟨rfl, rfl, by decide⟩

/-- C7, amended.  The queue-empty check and discard run after each event of
the batch, not only at its end: every reconciliation step decomposes as one
`reconcileStep` (reject, dispatch, in-loop drain check) followed by the rest
of the batch, and whenever a step leaves the queue empty the snapshot is
already discarded (`none`) before the next batch event is processed. -/
theorem discard_checked_each_event :
    (∀ (f : Nat) (e : Event) (rest : List Event) (st : IdeaState),
        initializeState (f + 1) (e :: rest) false st
          = (reconcileStep f e st).bind
              (fun s => initializeState f rest false s))
  ∧ (∀ (f : Nat) (e : Event) (st st2 : IdeaState),
        reconcileStep f e st = .ok st2 → st2.uncommittedEvents = [] →
        st2.snapshot = none) := by
  constructor
  · intro f e rest st
    rw [initializeState_cons]
    cases happ : applyHandler f e
        { st with uncommittedEvents :=
            rejectByCorrelation e.correlationId st.uncommittedEvents } <;>
      simp [reconcileStep, happ, Except.map, Except.bind]
  · intro f e st st2 h hq
    unfold reconcileStep at h
    cases happ : applyHandler f e
        { st with uncommittedEvents :=
            rejectByCorrelation e.correlationId st.uncommittedEvents } <;>
      rw [happ] at h <;> simp [Except.map] at h
    split at h
    · rw [← h, allEventsCommited_snapshot]
    · rw [← h] at hq
      simp [hq] at *

/-- Witness for C7's amended theorem: the decomposition of the two-event
batch at `stP`, and the drained first step (whose result is
`allEventsCommited stObs`) having its snapshot already discarded. -/
theorem discard_checked_each_event_w :
    initializeState 9 [confirmAwesome, remoteTag7] false stP
      = (reconcileStep 8 confirmAwesome stP).bind
          (fun s => initializeState 8 [remoteTag7] false s)
  ∧ (allEventsCommited stObs).snapshot = none :=
  ⟨discard_checked_each_event.1 8 confirmAwesome [remoteTag7] stP,
   discard_checked_each_event.2 8 confirmAwesome stP (allEventsCommited stObs)
     rfl rfl⟩

/-- C8.  The literal logging scenario: after `changeTitle("Awesome idea")` on
the `"1st idea"` fixture the snapshot is non-null; reconciling the one-event
batch holding the unrelated server title change (correlation id `"noise"`,
matching no pending entry) and then calling `addTag(1)` leaves the
events-since-snapshot log at length exactly 3 (local title change, unrelated
remote event, local tag add) with the snapshot still non-null. -/
theorem logging_scenario_literal :
    stP.snapshot.isSome = true
  ∧ (initializeState 9 [c8Server] false stP).map
      (fun s => ((addTag 1 s).eventsSinceSnapshot.length,
                 (addTag 1 s).snapshot.isSome)) = .ok (3, true) :=
  ⟨rfl, rfl⟩

/-- C9.  `changeTitle` and `addTag` derive the correlation id
deterministically from their argument, so issuing the same command twice with
the same argument enqueues two entries carrying the same correlation id; one
confirming batch event bearing that id then removes both entries from the
Uncommitted Queue at once (whatever else was queued is filtered by the same
rejection predicate). -/
theorem shared_correlation_collapses (t : String) (n : Int) (st : IdeaState)
    (f : Nat) :
    (changeTitle t (changeTitle t st)).uncommittedEvents
        = st.uncommittedEvents
          ++ [mkTitleEvent st.ideaId t, mkTitleEvent st.ideaId t]
  ∧ (mkTitleEvent st.ideaId t).correlationId = some ("my-ref-title" ++ t)
  ∧ (addTag n (addTag n st)).uncommittedEvents
        = st.uncommittedEvents
          ++ [mkTagEvent st.ideaId n, mkTagEvent st.ideaId n]
  ∧ (mkTagEvent st.ideaId n).correlationId = some ("my-ref-" ++ toString n)
  ∧ (∃ st2, initializeState (f + 1) [confirmTitle t] false
        (changeTitle t (changeTitle t st)) = .ok st2
      ∧ st2.uncommittedEvents
          = rejectByCorrelation (some ("my-ref-title" ++ t))
              st.uncommittedEvents)
  ∧ (∃ st2, initializeState (f + 1) [confirmTag n] false
        (addTag n (addTag n st)) = .ok st2
      ∧ st2.uncommittedEvents
          = rejectByCorrelation (some ("my-ref-" ++ toString n))
              st.uncommittedEvents) := by
  have hq2T : (changeTitle t (changeTitle t st)).uncommittedEvents
      = st.uncommittedEvents
        ++ [mkTitleEvent st.ideaId t, mkTitleEvent st.ideaId t] := by
    rw [changeTitle_uncommitted, changeTitle_uncommitted, changeTitle_ideaId]
    simp
  have hq2G : (addTag n (addTag n st)).uncommittedEvents
      = st.uncommittedEvents
        ++ [mkTagEvent st.ideaId n, mkTagEvent st.ideaId n] := by
    rw [addTag_uncommitted, addTag_uncommitted, addTag_ideaId]
    simp
  refine ⟨hq2T, rfl, hq2G, rfl, ?_, ?_⟩
  · obtain ⟨st2, hrun, hq⟩ := initializeState_one_normal f (confirmTitle t)
      (changeTitle t (changeTitle t st)) (by simp [isNormalType, confirmTitle])
    refine ⟨st2, hrun, ?_⟩
    rw [hq, hq2T]
    simp [rejectByCorrelation, confirmTitle, mkTitleEvent, jsEqCorr]
  · obtain ⟨st2, hrun, hq⟩ := initializeState_one_normal f (confirmTag n)
      (addTag n (addTag n st)) (by simp [isNormalType, confirmTag])
    refine ⟨st2, hrun, ?_⟩
    rw [hq, hq2G]
    simp [rejectByCorrelation, confirmTag, mkTagEvent, jsEqCorr]

/-- Witness for C9 at a concrete instantiation. -/
theorem shared_correlation_collapses_w :
    (mkTitleEvent idea0.ideaId "x").correlationId
      = some ("my-ref-title" ++ "x") :=
  (shared_correlation_collapses "x" 1 idea0 3).2.1

/-- C10.  Every entry enqueued by `changeTitle` or `addTag` carries a present,
non-empty string correlation id; and the confirmation-removal step
(`rejectByCorrelation`, as invoked by the reconciliation loop on the batch
event's correlation id) removes nothing from a queue all of whose entries
carry a present correlation id when the batch event carries none at all. -/
theorem local_corr_nonempty_unmatched_keeps_queue :
    (∀ (t : String) (st : IdeaState),
        (changeTitle t st).uncommittedEvents
          = st.uncommittedEvents ++ [mkTitleEvent st.ideaId t]
      ∧ (mkTitleEvent st.ideaId t).correlationId
          = some ("my-ref-title" ++ t)
      ∧ ¬ (("my-ref-title" ++ t) = ""))
  ∧ (∀ (n : Int) (st : IdeaState),
        (addTag n st).uncommittedEvents
          = st.uncommittedEvents ++ [mkTagEvent st.ideaId n]
      ∧ (mkTagEvent st.ideaId n).correlationId
          = some ("my-ref-" ++ toString n)
      ∧ ¬ (("my-ref-" ++ toString n) = ""))
  ∧ (∀ (e : Event) (q : List Event), e.correlationId = none →
        (∀ x ∈ q, ¬ (x.correlationId = none)) →
        rejectByCorrelation e.correlationId q = q) := by
  refine ⟨fun t st => ⟨changeTitle_uncommitted t st, rfl, ?_⟩,
          fun n st => ⟨addTag_uncommitted n st, rfl, ?_⟩, ?_⟩
  · intro hEq
    have h1 := congrArg String.length hEq
    rw [String.length_append] at h1
    have h2 : ("my-ref-title").length = 12 := rfl
    have h3 : ("" : String).length = 0 := rfl
    rw [h2, h3] at h1
    omega
  · intro hEq
    have h1 := congrArg String.length hEq
    rw [String.length_append] at h1
    have h2 : ("my-ref-").length = 7 := rfl
    have h3 : ("" : String).length = 0 := rfl
    rw [h2, h3] at h1
    omega
  · intro e q he hq
    unfold rejectByCorrelation
    rw [List.filter_eq_self]
    intro a ha
    obtain ⟨c, hc⟩ := Option.ne_none_iff_exists'.mp (hq a ha)
    rw [he, hc]
    rfl

/-- Witness for C10: the tag-less remote event removes nothing from a queue
holding one locally authored entry. -/
theorem local_corr_nonempty_unmatched_keeps_queue_w :
    rejectByCorrelation remoteTag7.correlationId [eAwesome] = [eAwesome] :=
  local_corr_nonempty_unmatched_keeps_queue.2.2 remoteTag7 [eAwesome] rfl
    (by decide)
